import Mathlib

/-!
Shallow embedding of the numeric core of `src/naomi.py` (a Streamlit rainwater
harvest & PVC durability simulator).  Python floats are modelled as exact
rationals for the arithmetic pipeline and as real numbers where `exp` enters;
the claims are stated "up to floating rounding".

Embedded code, line references into `src/naomi.py`:
* lines 93-106: `DEFAULT_RAIN`, the default 12-month rainfall profile;
* lines 117-121: the harvest computation (`Rainfall_m`, `Collected_L`,
  `annual_volume_l`, `annual_volume_m3`);
* lines 145-148: the PVC integrity projection
  (`cumulative_rain_m_per_year` via numpy tile/cumsum/reshape, `integrity`);
* lines 163-167: the tank-fit classification (`REC_MIN_L`, `REC_MAX_L`,
  `state`).
-/

/-- One row of the editable rainfall table: month label, rainfall depth in
millimeters and an informational rainy-day count (`src/naomi.py` lines 93-106). -/
structure MonthlyRainRecord where
  month : String
  rainfall_mm : ℚ
  rainy_days : ℚ
  deriving DecidableEq, Inhabited

/-- The default rainfall table, `DEFAULT_RAIN` of `src/naomi.py` lines 93-106. -/
def DEFAULT_RAIN : List MonthlyRainRecord :=
  [⟨"Jan", 8, 1.8⟩, ⟨"Feb", 23, 3.0⟩, ⟨"Mar", 46, 7.5⟩, ⟨"Apr", 89, 13⟩,
   ⟨"May", 137, 17.8⟩, ⟨"Jun", 193, 20.2⟩, ⟨"Jul", 155, 16.5⟩,
   ⟨"Aug", 127, 15.4⟩, ⟨"Sep", 183, 20.6⟩, ⟨"Oct", 140, 17.4⟩,
   ⟨"Nov", 33, 5.1⟩, ⟨"Dec", 10, 2.0⟩]

/-- `rain_df["Rainfall_m"] = rain_df["Rainfall_mm"] / 1000.0`
(`src/naomi.py` line 117). -/
def rainfall_m (df : List MonthlyRainRecord) : List ℚ :=
  df.map (fun r => r.rainfall_mm / 1000)

/-- `rain_df["Collected_L"] = roof_area * rain_df["Rainfall_m"] * efficiency * 1000`
(`src/naomi.py` line 118). -/
def collected_L (df : List MonthlyRainRecord) (roof_area efficiency : ℚ) : List ℚ :=
  (rainfall_m df).map (fun rm => roof_area * rm * efficiency * 1000)

/-- `annual_volume_l = rain_df["Collected_L"].sum()` (`src/naomi.py` line 120). -/
def annual_volume_l (df : List MonthlyRainRecord) (roof_area efficiency : ℚ) : ℚ :=
  (collected_L df roof_area efficiency).sum

/-- `annual_volume_m3 = annual_volume_l / 1000` (`src/naomi.py` line 121). -/
def annual_volume_m3 (df : List MonthlyRainRecord) (roof_area efficiency : ℚ) : ℚ :=
  annual_volume_l df roof_area efficiency / 1000

/-- The three tank-fit outcomes of the chained classification at
`src/naomi.py` lines 164-167. -/
inductive TankFit where
  | Within
  | Above
  | Below
  deriving DecidableEq

/-- `REC_MIN_L = 140_000` (`src/naomi.py` line 163). -/
def REC_MIN_L : ℚ := 140000

/-- `REC_MAX_L = 280_000` (`src/naomi.py` line 163). -/
def REC_MAX_L : ℚ := 280000

/-- The classification `state` of `src/naomi.py` lines 164-167:
`Within` if `REC_MIN_L <= annual_volume_l <= REC_MAX_L`, else `Above` if
`annual_volume_l > REC_MAX_L`, else `Below`. -/
def state (annual_l : ℚ) : TankFit :=
  if REC_MIN_L ≤ annual_l ∧ annual_l ≤ REC_MAX_L then TankFit.Within
  else if annual_l > REC_MAX_L then TankFit.Above
  else TankFit.Below

/-- `np.tile(xs, n)`: `n` end-to-end copies of `xs`. -/
def np_tile (xs : List ℚ) (n : ℕ) : List ℚ :=
  (List.replicate n xs).flatten

/-- Running-sum worker for `np.cumsum`, carrying the sum accumulated so far. -/
def np_cumsum_from (acc : ℚ) : List ℚ → List ℚ
  | [] => []
  | x :: xs => (acc + x) :: np_cumsum_from (acc + x) xs

/-- `np.cumsum(xs)`: the list of prefix sums of `xs` (same length as `xs`). -/
def np_cumsum (xs : List ℚ) : List ℚ :=
  np_cumsum_from 0 xs

/-- `np.cumsum(np.tile(monthly_rain_m, service_years)).reshape(service_years, 12)[:, -1]`
(`src/naomi.py` lines 145-146).  The tiled sequence has
`monthly.length * service_years` entries; numpy's `reshape` fails unless that
equals `service_years * 12`, modelled here by returning `none`.  The last
column of row `y` of the reshaped array is entry `12*y + 11` of the cumulative
sequence. -/
def cumulative_rain_m_per_year (df : List MonthlyRainRecord) (service_years : ℕ) :
    Option (List ℚ) :=
  let monthly_rain_m := rainfall_m df
  if monthly_rain_m.length * service_years = service_years * 12 then
    some ((List.range service_years).map
      (fun y => (np_cumsum (np_tile monthly_rain_m service_years)).getD (12 * y + 11) 0))
  else
    none

/-- `integrity = 100 * np.exp(-deg_coeff * cumulative_rain_m_per_year)`
(`src/naomi.py` line 147). -/
noncomputable def integrity (df : List MonthlyRainRecord) (deg_coeff : ℝ)
    (service_years : ℕ) : Option (List ℝ) :=
  (cumulative_rain_m_per_year df service_years).map
    (fun cum => cum.map (fun c : ℚ => 100 * Real.exp (-deg_coeff * (Rat.cast c : ℝ))))

/-- The integrity value projected for year `y` (`1 ≤ y`): entry `y - 1` of the
projection list, with junk defaults outside the defined range. -/
noncomputable def integrityAt (df : List MonthlyRainRecord) (deg_coeff : ℝ)
    (service_years y : ℕ) : ℝ :=
  ((integrity df deg_coeff service_years).getD []).getD (y - 1) 0

/-- The error taxonomy of spec §7: `ShapeMismatch` for a rainfall table
without exactly 12 rows, `InvalidHorizon` for a non-positive horizon. -/
inductive CoreError where
  | ShapeMismatch
  | InvalidHorizon
  deriving DecidableEq

/-- Modelled from the spec: §4.1/§4.2/§7 — the `compute_harvest` operation
with its length-12 validation raising `ShapeMismatch`.  The validation wrapper
is absent from `src/naomi.py` (the script inlines the arithmetic without a
guard); the wrapped arithmetic is the source's lines 117-121. -/
def compute_harvest (df : List MonthlyRainRecord) (roof_area efficiency : ℚ) :
    Except CoreError (List ℚ × ℚ × ℚ) :=
  if df.length = 12 then
    Except.ok (collected_L df roof_area efficiency,
               annual_volume_l df roof_area efficiency,
               annual_volume_m3 df roof_area efficiency)
  else
    Except.error CoreError.ShapeMismatch

/-- Modelled from the spec: §4.3/§7 — the `project_integrity` operation with
its length-12 validation raising `ShapeMismatch` (surfaced immediately) and
`InvalidHorizon` for a non-positive horizon.  The validation wrapper is absent
from `src/naomi.py`; the wrapped arithmetic is the source's lines 145-148. -/
noncomputable def project_integrity (df : List MonthlyRainRecord) (deg_coeff : ℝ)
    (service_years : ℕ) : Except CoreError (List ℝ) :=
  if df.length ≠ 12 then Except.error CoreError.ShapeMismatch
  else if service_years = 0 then Except.error CoreError.InvalidHorizon
  else
    match integrity df deg_coeff service_years with
    | some l => Except.ok l
    | none => Except.error CoreError.ShapeMismatch

/-- Modelled from the spec: §9, the re-architected direct iteration for the
per-year cumulative rainfall — "iterate year 1..N, maintain a running
cumulative total, add that year's 12 monthly values in sequence, record the
total at year-end".  `acc` is the running cumulative total. -/
def direct_cum_rain (monthly : List ℚ) : ℕ → ℚ → List ℚ
  | 0, _ => []
  | Nat.succ n, acc =>
    (monthly.foldl (fun s x => s + x) acc) ::
      direct_cum_rain monthly n (monthly.foldl (fun s x => s + x) acc)

/-- Modelled from the spec: §9 — the direct year-by-year re-implementation of
`cumulative_rain_m_per_year`, starting from a zero running total. -/
def direct_cumulative_rain_m_per_year (df : List MonthlyRainRecord)
    (service_years : ℕ) : List ℚ :=
  direct_cum_rain (rainfall_m df) service_years 0

/-! ### Helper lemmas about the numpy idioms -/

lemma foldl_add_eq (l : List ℚ) (a : ℚ) : l.foldl (fun s x => s + x) a = a + l.sum := by
  induction l generalizing a with
  | nil => simp
  | cons x xs ih => simp only [List.foldl_cons, ih, List.sum_cons]; ring

lemma np_tile_succ (xs : List ℚ) (n : ℕ) : np_tile xs (n + 1) = xs ++ np_tile xs n := by
  rw [np_tile, np_tile, List.replicate_succ, List.flatten_cons]

lemma np_tile_length (xs : List ℚ) (n : ℕ) : (np_tile xs n).length = n * xs.length := by
  induction n with
  | zero => simp [np_tile]
  | succ n ih => rw [np_tile_succ, List.length_append, ih]; ring

lemma np_tile_sum (xs : List ℚ) (n : ℕ) : (np_tile xs n).sum = n * xs.sum := by
  induction n with
  | zero => simp [np_tile]
  | succ n ih => rw [np_tile_succ, List.sum_append, ih]; push_cast; ring

lemma np_tile_add (xs : List ℚ) (m n : ℕ) :
    np_tile xs (m + n) = np_tile xs m ++ np_tile xs n := by
  rw [np_tile, np_tile, np_tile, List.replicate_add, List.flatten_append]

lemma np_tile_take (xs : List ℚ) (h12 : xs.length = 12) (y n : ℕ) (hyn : y ≤ n) :
    (np_tile xs n).take (12 * y) = np_tile xs y := by
  obtain ⟨d, rfl⟩ := Nat.exists_eq_add_of_le hyn
  rw [np_tile_add]
  have hl : (np_tile xs y).length = 12 * y := by rw [np_tile_length, h12]; ring
  rw [← hl, List.take_left]

lemma np_cumsum_from_getD (xs : List ℚ) (acc : ℚ) (j : ℕ) (h : j < xs.length) :
    (np_cumsum_from acc xs).getD j 0 = acc + (xs.take (j + 1)).sum := by
  induction xs generalizing acc j with
  | nil => simp at h
  | cons x xs ih =>
    cases j with
    | zero => simp [np_cumsum_from]
    | succ j =>
      rw [np_cumsum_from, List.getD_cons_succ, ih (acc + x) j (by simpa using h),
        List.take_succ_cons, List.sum_cons]
      ring

lemma np_cumsum_getD (xs : List ℚ) (j : ℕ) (h : j < xs.length) :
    (np_cumsum xs).getD j 0 = (xs.take (j + 1)).sum := by
  simpa using np_cumsum_from_getD xs 0 j h

lemma getD_map_range {α : Type} (f : ℕ → α) (n j : ℕ) (d : α) (h : j < n) :
    ((List.range n).map f).getD j d = f j := by
  have h1 : j < ((List.range n).map f).length := by simpa using h
  rw [List.getD_eq_getElem _ _ h1, List.getElem_map, List.getElem_range]

lemma cumulative_rain_m_per_year_eq (df : List MonthlyRainRecord) (years : ℕ)
    (h12 : df.length = 12) :
    cumulative_rain_m_per_year df years =
      some ((List.range years).map (fun y : ℕ => ((y : ℚ) + 1) * (rainfall_m df).sum)) := by
  have hm : (rainfall_m df).length = 12 := by simp [rainfall_m, h12]
  simp only [cumulative_rain_m_per_year]
  rw [if_pos (by rw [hm, Nat.mul_comm])]
  congr 1
  refine List.map_congr_left ?_
  intro y hy
  have hy' : y < years := List.mem_range.mp hy
  have hidx : 12 * y + 11 < (np_tile (rainfall_m df) years).length := by
    rw [np_tile_length, hm]; omega
  rw [np_cumsum_getD _ _ hidx,
    show 12 * y + 11 + 1 = 12 * (y + 1) from by ring,
    np_tile_take _ hm (y + 1) years (by omega), np_tile_sum]
  push_cast
  ring

lemma rainfall_m_cons (r : MonthlyRainRecord) (t : List MonthlyRainRecord) :
    rainfall_m (r :: t) = r.rainfall_mm / 1000 :: rainfall_m t := rfl

lemma rainfall_m_sum (df : List MonthlyRainRecord) :
    (rainfall_m df).sum = (df.map (fun r => r.rainfall_mm)).sum / 1000 := by
  induction df with
  | nil => simp [rainfall_m]
  | cons r t ih =>
    rw [rainfall_m_cons, List.sum_cons, ih, List.map_cons, List.sum_cons]
    ring

lemma rainfall_m_sum_nonneg (df : List MonthlyRainRecord)
    (h : ∀ r ∈ df, 0 ≤ r.rainfall_mm) : 0 ≤ (rainfall_m df).sum := by
  apply List.sum_nonneg
  intro x hx
  simp only [rainfall_m, List.mem_map] at hx
  obtain ⟨r, hr, rfl⟩ := hx
  have := h r hr
  positivity

lemma rainfall_m_sum_pos (df : List MonthlyRainRecord)
    (hnn : ∀ r ∈ df, 0 ≤ r.rainfall_mm) (hpos : ∃ r ∈ df, 0 < r.rainfall_mm) :
    0 < (rainfall_m df).sum := by
  induction df with
  | nil => obtain ⟨r, hr, _⟩ := hpos; exact absurd hr (List.not_mem_nil r)
  | cons a t ih =>
    rw [rainfall_m_cons, List.sum_cons]
    have ha : 0 ≤ a.rainfall_mm := hnn a (List.mem_cons_self a t)
    obtain ⟨r, hr, hrpos⟩ := hpos
    rcases List.mem_cons.mp hr with h | hrt
    · have hp : 0 < a.rainfall_mm := h ▸ hrpos
      have h1 : 0 < a.rainfall_mm / 1000 := by positivity
      have h2 : 0 ≤ (rainfall_m t).sum :=
        rainfall_m_sum_nonneg t (fun x hx => hnn x (List.mem_cons_of_mem _ hx))
      linarith
    · have h1 : 0 ≤ a.rainfall_mm / 1000 := by positivity
      have h2 : 0 < (rainfall_m t).sum :=
        ih (fun x hx => hnn x (List.mem_cons_of_mem _ hx)) ⟨r, hrt, hrpos⟩
      linarith

lemma integrity_eq (df : List MonthlyRainRecord) (k : ℝ) (years : ℕ)
    (h12 : df.length = 12) :
    integrity df k years = some ((List.range years).map
      (fun y : ℕ => 100 * Real.exp
        (-k * (Rat.cast (((y : ℚ) + 1) * (rainfall_m df).sum) : ℝ)))) := by
  rw [integrity, cumulative_rain_m_per_year_eq df years h12]
  simp [List.map_map, Function.comp]

lemma integrityAt_eq (df : List MonthlyRainRecord) (k : ℝ) (years y : ℕ)
    (h12 : df.length = 12) (hy1 : 1 ≤ y) (hy : y ≤ years) :
    integrityAt df k years y =
      100 * Real.exp (-k * ((y : ℝ) * (Rat.cast ((rainfall_m df).sum) : ℝ))) := by
  rw [integrityAt, integrity_eq df k years h12, Option.getD_some,
    getD_map_range _ years (y - 1) 0 (by omega)]
  have harg : (Rat.cast ((((y - 1 : ℕ) : ℚ) + 1) * (rainfall_m df).sum) : ℝ) =
      (y : ℝ) * (Rat.cast ((rainfall_m df).sum) : ℝ) := by
    push_cast [Nat.cast_sub hy1]
    ring
  rw [harg]

lemma direct_cum_rain_eq (monthly : List ℚ) (n : ℕ) (acc : ℚ) :
    direct_cum_rain monthly n acc =
      (List.range n).map (fun y : ℕ => acc + ((y : ℚ) + 1) * monthly.sum) := by
  induction n generalizing acc with
  | zero => simp [direct_cum_rain]
  | succ n ih =>
    rw [direct_cum_rain, foldl_add_eq, ih, List.range_succ_eq_map, List.map_cons,
      List.map_map]
    refine congrArg₂ List.cons (by push_cast; ring) ?_
    refine List.map_congr_left ?_
    intro a _
    simp only [Function.comp_apply]
    push_cast
    ring

lemma sum_map_double (l : List ℚ) : (l.map (fun x => 2 * x)).sum = 2 * l.sum := by
  induction l with
  | nil => simp
  | cons x xs ih => simp only [List.map_cons, List.sum_cons, ih]; ring

/-- **C10**: for a 12-row table the tile/cumsum/reshape/last-column pipeline of
`src/naomi.py` line 146 produces exactly the direct year-by-year running-total
iteration described by the spec, and the year-`y` entry equals `y` times the
annual rainfall sum in meters. -/
theorem tiled_cumsum_refines_direct_iteration (df : List MonthlyRainRecord)
    (service_years y : ℕ) (h12 : df.length = 12) (hy1 : 1 ≤ y)
    (hy : y ≤ service_years) :
    cumulative_rain_m_per_year df service_years =
      some (direct_cumulative_rain_m_per_year df service_years) ∧
    (direct_cumulative_rain_m_per_year df service_years).getD (y - 1) 0 =
      (y : ℚ) * (rainfall_m df).sum := by
  constructor
  · rw [cumulative_rain_m_per_year_eq df service_years h12,
      direct_cumulative_rain_m_per_year, direct_cum_rain_eq]
    exact congrArg some (List.map_congr_left (fun a _ => by ring))
  · rw [direct_cumulative_rain_m_per_year, direct_cum_rain_eq,
      getD_map_range _ service_years (y - 1) 0 (by omega)]
    have hc : ((y - 1 : ℕ) : ℚ) + 1 = (y : ℚ) := by
      push_cast [Nat.cast_sub hy1]
      ring
    rw [hc]
    ring

/-- **C10 witness**: the refinement instantiated on the default table over a
3-year horizon at year 2. -/
theorem tiled_cumsum_refines_direct_iteration_witness :
    cumulative_rain_m_per_year DEFAULT_RAIN 3 =
      some (direct_cumulative_rain_m_per_year DEFAULT_RAIN 3) ∧
    (direct_cumulative_rain_m_per_year DEFAULT_RAIN 3).getD (2 - 1) 0 =
      ((2 : ℕ) : ℚ) * (rainfall_m DEFAULT_RAIN).sum :=
  tiled_cumsum_refines_direct_iteration DEFAULT_RAIN 3 2 (by decide) (by decide)
    (by decide)

/-- **C1**: for every 12-row rainfall table, roof area and efficiency, each
monthly collected volume is `roof_area_m2 * (rainfall_mm[i] / 1000) *
efficiency * 1000`, which equals `roof_area_m2 * rainfall_mm[i] * efficiency`;
the annual total is the sum of the monthly volumes and the cubic-meter figure
is that sum divided by 1000. -/
theorem harvest_monthly_formula_and_annual_sums (df : List MonthlyRainRecord)
    (roof_area efficiency : ℚ) (h12 : df.length = 12) :
    collected_L df roof_area efficiency =
      df.map (fun r => roof_area * (r.rainfall_mm / 1000) * efficiency * 1000) ∧
    collected_L df roof_area efficiency =
      df.map (fun r => roof_area * r.rainfall_mm * efficiency) ∧
    annual_volume_l df roof_area efficiency =
      (collected_L df roof_area efficiency).sum ∧
    annual_volume_m3 df roof_area efficiency =
      annual_volume_l df roof_area efficiency / 1000 := by
  refine ⟨?_, ?_, rfl, rfl⟩
  · rw [collected_L, rainfall_m, List.map_map]
    rfl
  · rw [collected_L, rainfall_m, List.map_map]
    refine List.map_congr_left ?_
    intro r _
    simp only [Function.comp_apply]
    ring

/-- **C1 witness**: the harvest formulas instantiated on the default table
with roof area 250 m² and efficiency 0.85. -/
theorem harvest_monthly_formula_and_annual_sums_witness :
    collected_L DEFAULT_RAIN 250 (85 / 100) =
      DEFAULT_RAIN.map (fun r => 250 * (r.rainfall_mm / 1000) * (85 / 100) * 1000) ∧
    collected_L DEFAULT_RAIN 250 (85 / 100) =
      DEFAULT_RAIN.map (fun r => 250 * r.rainfall_mm * (85 / 100)) ∧
    annual_volume_l DEFAULT_RAIN 250 (85 / 100) =
      (collected_L DEFAULT_RAIN 250 (85 / 100)).sum ∧
    annual_volume_m3 DEFAULT_RAIN 250 (85 / 100) =
      annual_volume_l DEFAULT_RAIN 250 (85 / 100) / 1000 :=
  harvest_monthly_formula_and_annual_sums DEFAULT_RAIN 250 (85 / 100) (by decide)

/-- **C3 counterexample**: with the default profile, roof area 250 m² and
efficiency 0.85 the computed annual volume is not the claimed 243,400 L
(it is 243,100 L: the sum 1144 mm gives 250 * 0.85 * 1144 = 243,100). -/
theorem default_profile_annual_ne_243400 :
    annual_volume_l DEFAULT_RAIN 250 (85 / 100) ≠ 243400 := by
  norm_num [annual_volume_l, collected_L, rainfall_m, DEFAULT_RAIN]

/-- **C3 (amended)**: the default profile sums to 1144 mm/year, the computed
annual volume with roof area 250 m² and efficiency 0.85 is
`250 * 0.85 * 1144 = 243,100` L exactly, and classifying it returns `Within`. -/
theorem default_profile_annual_243100_within :
    (DEFAULT_RAIN.map (fun r => r.rainfall_mm)).sum = 1144 ∧
    annual_volume_l DEFAULT_RAIN 250 (85 / 100) = 243100 ∧
    annual_volume_l DEFAULT_RAIN 250 (85 / 100) = 250 * (85 / 100) * 1144 ∧
    state (annual_volume_l DEFAULT_RAIN 250 (85 / 100)) = TankFit.Within := by
  have h : annual_volume_l DEFAULT_RAIN 250 (85 / 100) = 243100 := by
    norm_num [annual_volume_l, collected_L, rainfall_m, DEFAULT_RAIN]
  refine ⟨by norm_num [DEFAULT_RAIN], h, by rw [h]; norm_num, ?_⟩
  rw [h]
  simp only [state, REC_MIN_L, REC_MAX_L]
  norm_num

/-- **C4**: the tank-fit classification is total and returns `Within` exactly
on `[140000, 280000]` (both ends inclusive), `Above` exactly above 280000 and
`Below` exactly below 140000; in particular at the four boundary probes. -/
theorem tank_classification_boundaries (a : ℚ) :
    (state a = TankFit.Within ↔ 140000 ≤ a ∧ a ≤ 280000) ∧
    (state a = TankFit.Above ↔ 280000 < a) ∧
    (state a = TankFit.Below ↔ a < 140000) ∧
    state 140000 = TankFit.Within ∧ state 280000 = TankFit.Within ∧
    state 139999.999 = TankFit.Below ∧ state 280000.001 = TankFit.Above := by
  have key : ∀ b : ℚ, (state b = TankFit.Within ↔ 140000 ≤ b ∧ b ≤ 280000) ∧
      (state b = TankFit.Above ↔ 280000 < b) ∧
      (state b = TankFit.Below ↔ b < 140000) := by
    intro b
    unfold state REC_MIN_L REC_MAX_L
    split_ifs with h1 h2
    · refine ⟨by simp [h1], ?_, ?_⟩
      · simp only [show (TankFit.Within = TankFit.Above) = False from by simp, false_iff]
        linarith [h1.2]
      · simp only [show (TankFit.Within = TankFit.Below) = False from by simp, false_iff]
        linarith [h1.1]
    · refine ⟨?_, by simp [h2], ?_⟩
      · simp only [show (TankFit.Above = TankFit.Within) = False from by simp, false_iff]
        intro hc
        linarith [hc.2]
      · simp only [show (TankFit.Above = TankFit.Below) = False from by simp, false_iff]
        linarith
    · push_neg at h2
      have hlt : b < 140000 := by
        by_contra hge
        push_neg at hge
        exact h1 ⟨hge, h2⟩
      refine ⟨?_, ?_, by simp [hlt]⟩
      · simp only [show (TankFit.Below = TankFit.Within) = False from by simp, false_iff]
        intro hc
        linarith [hc.1]
      · simp only [show (TankFit.Below = TankFit.Above) = False from by simp, false_iff]
        linarith
  obtain ⟨k1, k2, k3⟩ := key a
  refine ⟨k1, k2, k3, ?_, ?_, ?_, ?_⟩
  · exact (key 140000).1.mpr ⟨by norm_num, by norm_num⟩
  · exact (key 280000).1.mpr ⟨by norm_num, by norm_num⟩
  · exact (key 139999.999).2.2.mpr (by norm_num)
  · exact (key 280000.001).2.1.mpr (by norm_num)

/-- **C7**: the harvest computation is linear in roof area and in efficiency:
doubling either input exactly doubles every monthly collected volume and the
annual total. -/
theorem harvest_linearity (df : List MonthlyRainRecord) (roof_area efficiency : ℚ) :
    collected_L df (2 * roof_area) efficiency =
      (collected_L df roof_area efficiency).map (fun x => 2 * x) ∧
    collected_L df roof_area (2 * efficiency) =
      (collected_L df roof_area efficiency).map (fun x => 2 * x) ∧
    annual_volume_l df (2 * roof_area) efficiency =
      2 * annual_volume_l df roof_area efficiency ∧
    annual_volume_l df roof_area (2 * efficiency) =
      2 * annual_volume_l df roof_area efficiency := by
  have h1 : collected_L df (2 * roof_area) efficiency =
      (collected_L df roof_area efficiency).map (fun x => 2 * x) := by
    rw [collected_L, collected_L, List.map_map]
    refine List.map_congr_left ?_
    intro rm _
    simp only [Function.comp_apply]
    ring
  have h2 : collected_L df roof_area (2 * efficiency) =
      (collected_L df roof_area efficiency).map (fun x => 2 * x) := by
    rw [collected_L, collected_L, List.map_map]
    refine List.map_congr_left ?_
    intro rm _
    simp only [Function.comp_apply]
    ring
  refine ⟨h1, h2, ?_, ?_⟩
  · rw [annual_volume_l, annual_volume_l, h1, sum_map_double]
  · rw [annual_volume_l, annual_volume_l, h2, sum_map_double]

/-- **C8**: on a rainfall table without exactly 12 rows, both the validated
harvest computation and the validated integrity projection fail with
`ShapeMismatch`. -/
theorem shape_mismatch_rejects_non_12 (df : List MonthlyRainRecord)
    (roof_area efficiency : ℚ) (deg_coeff : ℝ) (service_years : ℕ)
    (h : df.length ≠ 12) :
    compute_harvest df roof_area efficiency =
      Except.error CoreError.ShapeMismatch ∧
    project_integrity df deg_coeff service_years =
      Except.error CoreError.ShapeMismatch := by
  constructor
  · rw [compute_harvest, if_neg h]
  · rw [project_integrity, if_pos h]

/-- **C8 witness**: an 11-row table (the default table with January dropped)
is rejected by both operations. -/
theorem shape_mismatch_rejects_non_12_witness :
    compute_harvest (DEFAULT_RAIN.drop 1) 250 (85 / 100) =
      Except.error CoreError.ShapeMismatch ∧
    project_integrity (DEFAULT_RAIN.drop 1) 0.04 25 =
      Except.error CoreError.ShapeMismatch :=
  shape_mismatch_rejects_non_12 (DEFAULT_RAIN.drop 1) 250 (85 / 100) 0.04 25
    (by decide)

/-- **C9**: two rainfall tables with the same month labels and the same
monthly `rainfall_mm`, differing only in `rainy_days`, give identical harvest
volumes, annual totals, tank classification, cumulative-rain sequences and
integrity projections. -/
theorem rainy_days_noninterference (df1 df2 : List MonthlyRainRecord)
    (roof_area efficiency : ℚ) (deg_coeff : ℝ) (service_years : ℕ)
    (hmonth : df1.map (fun r => r.month) = df2.map (fun r => r.month))
    (hrain : df1.map (fun r => r.rainfall_mm) = df2.map (fun r => r.rainfall_mm)) :
    collected_L df1 roof_area efficiency = collected_L df2 roof_area efficiency ∧
    annual_volume_l df1 roof_area efficiency =
      annual_volume_l df2 roof_area efficiency ∧
    annual_volume_m3 df1 roof_area efficiency =
      annual_volume_m3 df2 roof_area efficiency ∧
    state (annual_volume_l df1 roof_area efficiency) =
      state (annual_volume_l df2 roof_area efficiency) ∧
    cumulative_rain_m_per_year df1 service_years =
      cumulative_rain_m_per_year df2 service_years ∧
    integrity df1 deg_coeff service_years = integrity df2 deg_coeff service_years := by
  have hm : rainfall_m df1 = rainfall_m df2 := by
    have e1 : rainfall_m df1 =
        (df1.map (fun r => r.rainfall_mm)).map (fun x => x / 1000) := by
      rw [rainfall_m, List.map_map]
      rfl
    have e2 : rainfall_m df2 =
        (df2.map (fun r => r.rainfall_mm)).map (fun x => x / 1000) := by
      rw [rainfall_m, List.map_map]
      rfl
    rw [e1, e2, hrain]
  have hc : collected_L df1 roof_area efficiency =
      collected_L df2 roof_area efficiency := by
    rw [collected_L, collected_L, hm]
  have ha : annual_volume_l df1 roof_area efficiency =
      annual_volume_l df2 roof_area efficiency := by
    rw [annual_volume_l, annual_volume_l, hc]
  have hcum : cumulative_rain_m_per_year df1 service_years =
      cumulative_rain_m_per_year df2 service_years := by
    simp only [cumulative_rain_m_per_year, hm]
  refine ⟨hc, ha, ?_, ?_, hcum, ?_⟩
  · rw [annual_volume_m3, annual_volume_m3, ha]
  · rw [ha]
  · rw [integrity, integrity, hcum]

/-- **C9 witness**: the default table against a copy with every rainy-day
count replaced by 0. -/
theorem rainy_days_noninterference_witness :
    collected_L DEFAULT_RAIN 250 (85 / 100) =
      collected_L (DEFAULT_RAIN.map (fun r => ⟨r.month, r.rainfall_mm, 0⟩))
        250 (85 / 100) ∧
    annual_volume_l DEFAULT_RAIN 250 (85 / 100) =
      annual_volume_l (DEFAULT_RAIN.map (fun r => ⟨r.month, r.rainfall_mm, 0⟩))
        250 (85 / 100) ∧
    annual_volume_m3 DEFAULT_RAIN 250 (85 / 100) =
      annual_volume_m3 (DEFAULT_RAIN.map (fun r => ⟨r.month, r.rainfall_mm, 0⟩))
        250 (85 / 100) ∧
    state (annual_volume_l DEFAULT_RAIN 250 (85 / 100)) =
      state (annual_volume_l (DEFAULT_RAIN.map (fun r => ⟨r.month, r.rainfall_mm, 0⟩))
        250 (85 / 100)) ∧
    cumulative_rain_m_per_year DEFAULT_RAIN 25 =
      cumulative_rain_m_per_year (DEFAULT_RAIN.map (fun r => ⟨r.month, r.rainfall_mm, 0⟩)) 25 ∧
    integrity DEFAULT_RAIN 0.04 25 =
      integrity (DEFAULT_RAIN.map (fun r => ⟨r.month, r.rainfall_mm, 0⟩)) 0.04 25 :=
  rainy_days_noninterference DEFAULT_RAIN
    (DEFAULT_RAIN.map (fun r => ⟨r.month, r.rainfall_mm, 0⟩)) 250 (85 / 100)
    0.04 25 rfl rfl

/-- **C2**: for a 12-row table, any coefficient and any year `y` within the
horizon, the projected integrity for year `y` is
`100 * exp(-k * cum_rain_m[y])` where `cum_rain_m[y]` is the prefix sum at
index `12*y - 1` (i.e. the sum of the first `12*y` entries) of the tiled
monthly rainfall-in-meters sequence. -/
theorem integrity_year_formula (df : List MonthlyRainRecord) (deg_coeff : ℝ)
    (service_years y : ℕ) (h12 : df.length = 12) (hy1 : 1 ≤ y)
    (hy : y ≤ service_years) :
    integrity df deg_coeff service_years ≠ none ∧
    integrityAt df deg_coeff service_years y =
      100 * Real.exp (-deg_coeff *
        (Rat.cast (((np_tile (rainfall_m df) service_years).take (12 * y)).sum) : ℝ)) := by
  constructor
  · rw [integrity_eq df deg_coeff service_years h12]
    simp
  · rw [integrityAt_eq df deg_coeff service_years y h12 hy1 hy,
      np_tile_take (rainfall_m df) (by rw [rainfall_m, List.length_map, h12])
        y service_years hy,
      np_tile_sum]
    congr 1
    push_cast
    ring

/-- **C2 witness**: the formula instantiated on the default table with
`k = 0.04` over a 1-year horizon at year 1. -/
theorem integrity_year_formula_witness :
    integrity DEFAULT_RAIN 0.04 1 ≠ none ∧
    integrityAt DEFAULT_RAIN 0.04 1 1 =
      100 * Real.exp (-(0.04 : ℝ) *
        (Rat.cast (((np_tile (rainfall_m DEFAULT_RAIN) 1).take (12 * 1)).sum) : ℝ)) :=
  integrity_year_formula DEFAULT_RAIN 0.04 1 1 (by decide) (by decide) (by decide)

/-- **C6**: over the documented input domain (non-negative monthly rainfall,
positive degradation coefficient, 12-row table), every projected integrity
value lies in `(0, 100]`. -/
theorem integrity_bounds (df : List MonthlyRainRecord) (deg_coeff : ℝ)
    (service_years y : ℕ) (h12 : df.length = 12)
    (hnn : ∀ r ∈ df, 0 ≤ r.rainfall_mm) (hk : 0 < deg_coeff)
    (hy1 : 1 ≤ y) (hy : y ≤ service_years) :
    integrity df deg_coeff service_years ≠ none ∧
    0 < integrityAt df deg_coeff service_years y ∧
    integrityAt df deg_coeff service_years y ≤ 100 := by
  have hS : 0 ≤ (rainfall_m df).sum := rainfall_m_sum_nonneg df hnn
  have hS' : (0 : ℝ) ≤ (Rat.cast ((rainfall_m df).sum) : ℝ) := by exact_mod_cast hS
  rw [integrityAt_eq df deg_coeff service_years y h12 hy1 hy]
  refine ⟨by rw [integrity_eq df deg_coeff service_years h12]; simp, ?_, ?_⟩
  · positivity
  · have hyR : (0 : ℝ) ≤ (y : ℝ) := by positivity
    have harg : -deg_coeff * ((y : ℝ) * (Rat.cast ((rainfall_m df).sum) : ℝ)) ≤ 0 := by
      nlinarith [mul_nonneg hyR hS']
    have hle : Real.exp (-deg_coeff * ((y : ℝ) * (Rat.cast ((rainfall_m df).sum) : ℝ))) ≤ 1 :=
      Real.exp_le_one_iff.mpr harg
    linarith

/-- **C6 witness**: the bounds instantiated on the default table with
`k = 0.04` over a 25-year horizon at year 25. -/
theorem integrity_bounds_witness :
    integrity DEFAULT_RAIN 0.04 25 ≠ none ∧
    0 < integrityAt DEFAULT_RAIN 0.04 25 25 ∧
    integrityAt DEFAULT_RAIN 0.04 25 25 ≤ 100 :=
  integrity_bounds DEFAULT_RAIN 0.04 25 25 (by decide) (by decide) (by norm_num)
    (by decide) (by decide)

/-- **C5**: on the documented domain with at least one strictly positive
month and `k > 0`, the integrity projection is strictly decreasing in the
year, and (so) it is not constant at 100: already the year-1 value is below
100, giving the contrapositive of "constant at 100 only if all rainfall is
zero". -/
theorem integrity_strictly_decreasing (df : List MonthlyRainRecord)
    (deg_coeff : ℝ) (service_years y1 y2 : ℕ) (h12 : df.length = 12)
    (hnn : ∀ r ∈ df, 0 ≤ r.rainfall_mm) (hpos : ∃ r ∈ df, 0 < r.rainfall_mm)
    (hk : 0 < deg_coeff) (hy1 : 1 ≤ y1) (hlt : y1 < y2)
    (hy2 : y2 ≤ service_years) :
    integrityAt df deg_coeff service_years y2 <
      integrityAt df deg_coeff service_years y1 ∧
    integrityAt df deg_coeff service_years 1 < 100 := by
  have hS : 0 < (rainfall_m df).sum := rainfall_m_sum_pos df hnn hpos
  have hS' : (0 : ℝ) < (Rat.cast ((rainfall_m df).sum) : ℝ) := by exact_mod_cast hS
  rw [integrityAt_eq df deg_coeff service_years y1 h12 hy1 (by omega),
    integrityAt_eq df deg_coeff service_years y2 h12 (by omega) hy2,
    integrityAt_eq df deg_coeff service_years 1 h12 le_rfl (by omega)]
  simp only [Nat.cast_one]
  constructor
  · have hy12 : (y1 : ℝ) < (y2 : ℝ) := by exact_mod_cast hlt
    have hmul : (y1 : ℝ) * (Rat.cast ((rainfall_m df).sum) : ℝ) <
        (y2 : ℝ) * (Rat.cast ((rainfall_m df).sum) : ℝ) :=
      mul_lt_mul_of_pos_right hy12 hS'
    have hmul2 : deg_coeff * ((y1 : ℝ) * (Rat.cast ((rainfall_m df).sum) : ℝ)) <
        deg_coeff * ((y2 : ℝ) * (Rat.cast ((rainfall_m df).sum) : ℝ)) :=
      mul_lt_mul_of_pos_left hmul hk
    have harg : -deg_coeff * ((y2 : ℝ) * (Rat.cast ((rainfall_m df).sum) : ℝ)) <
        -deg_coeff * ((y1 : ℝ) * (Rat.cast ((rainfall_m df).sum) : ℝ)) := by
      linarith
    have := Real.exp_lt_exp.mpr harg
    linarith
  · have hmul : 0 < deg_coeff * (Rat.cast ((rainfall_m df).sum) : ℝ) :=
      mul_pos hk hS'
    have harg : -deg_coeff * ((1 : ℝ) * (Rat.cast ((rainfall_m df).sum) : ℝ)) < 0 := by
      linarith [hmul]
    have := Real.exp_lt_one_iff.mpr harg
    linarith

/-- **C5 witness**: strict decrease from year 1 to year 2 on the default table
with `k = 0.04` over a 25-year horizon. -/
theorem integrity_strictly_decreasing_witness :
    integrityAt DEFAULT_RAIN 0.04 25 2 < integrityAt DEFAULT_RAIN 0.04 25 1 ∧
    integrityAt DEFAULT_RAIN 0.04 25 1 < 100 :=
  integrity_strictly_decreasing DEFAULT_RAIN 0.04 25 1 2 (by decide) (by decide)
    (by decide) (by norm_num) (by decide) (by decide) (by decide)
